import Mathlib

/-!
Verification of the core components of the `ma-fnd` multi-agent fake-news
detection system: the publish/subscribe message broker
(`src/agents/message_broker.py`), the metrics collector (`src/metrics.py`),
the rule-based decision engine (`src/agents/judge_agent_rule.py`), the
preprocessing agent (`src/agents/preprocessing_agent.py`) and the pipeline
orchestrator (`src/orchestrator.py`).

Modelling conventions:
* Python floats are modelled as rationals (`ℚ`) at input/arithmetic level;
  the one square root in the code (`** 0.5` in the confidence interval) is
  modelled with `Real.sqrt`, so confidence intervals live in `ℝ`.
* Wall-clock readings (`time.time()`, `datetime.utcnow()`) are treated as
  opaque data supplied by the caller, and durations are dropped where no
  property mentions them.
* Python callbacks and agents may raise; they are modelled as functions
  into `Except String _`.  A callback value is identified by a numeric id
  (`Nat`), and its behaviour is a separate function from ids to results,
  mirroring Python object identity.
* Python `dict` arguments that the code tests for truthiness and for
  presence of individual keys are modelled as `Option`-valued records; a
  separate constructor distinguishes `None` from `{}` where the code
  distinguishes them (`is None` versus falsiness).
-/

namespace MaFnd

/-! ### Message broker (src/agents/message_broker.py) -/

/-- Standard message format for inter-agent communication
(`AgentMessage` dataclass).  `content` is an opaque payload. -/
structure AgentMessage where
  agent_id : String
  timestamp : String
  message_type : String
  content : String
  target_agents : List String
  deriving Repr, DecidableEq

/-- State of `MessageBroker`: `subscribers` is a `defaultdict(list)` keyed by
agent id (association list in key-insertion order, values in append order,
entries are callback identities); `message_queue` and `message_history` as in
the source; `max_history = 1000`. -/
structure MessageBroker where
  subscribers : List (String × List Nat) := []
  message_queue : List AgentMessage := []
  message_history : List AgentMessage := []
  max_history : Nat := 1000
  deriving Repr, DecidableEq

namespace MessageBroker

/-- Append a callback under `agent_id` (`subscribe`): defaultdict lookup
creates the key on first use, later subscriptions append. -/
def subscribe (b : MessageBroker) (agent_id : String) (cb : Nat) : MessageBroker :=
  if (b.subscribers.lookup agent_id).isSome then
    { b with subscribers :=
        b.subscribers.map (fun p => if p.1 = agent_id then (p.1, p.2 ++ [cb]) else p) }
  else
    { b with subscribers := b.subscribers ++ [(agent_id, [cb])] }

/-- Remove one matching callback if present (`unsubscribe`);
`list.remove` drops the first occurrence.  (Python's defaultdict access
also creates an empty entry for an unknown id; that empty list resolves to
no callbacks in `publish`, so it is not modelled.) -/
def unsubscribe (b : MessageBroker) (agent_id : String) (cb : Nat) : MessageBroker :=
  { b with subscribers :=
      b.subscribers.map (fun p => if p.1 = agent_id then (p.1, p.2.erase cb) else p) }

/-- History bookkeeping shared by `publish` and `broadcast`: append the
message, then `pop(0)` once if the cap is exceeded. -/
def pushHistory (h : List AgentMessage) (cap : Nat) (m : AgentMessage) : List AgentMessage :=
  let h' := h ++ [m]
  if cap < h'.length then h'.drop 1 else h'

/-- Callbacks `publish` resolves for a message: for each entry of
`target_agents`, the current subscriber list of that exact key
(`if target in self.subscribers: callbacks_to_invoke.extend(...)`).
No wildcard handling occurs here. -/
def callbacksFor (b : MessageBroker) (m : AgentMessage) : List Nat :=
  m.target_agents.flatMap (fun t => ((b.subscribers.lookup t).getD []))

/-- Behaviour of callback objects: a callback id applied to a message either
returns (`.ok`) or raises (`.error msg`). -/
def CallbackBehavior : Type := Nat → AgentMessage → Except String Unit

/-- Invoke every callback in order; each call is wrapped in
`try ... except Exception as e: print(...)`, so a raising callback is still
counted as invoked and its error is logged, never rethrown. Returns the
invocation order and the caught error messages. -/
def runCallbacks (beh : CallbackBehavior) (m : AgentMessage) :
    List Nat → List Nat × List String
  | [] => ([], [])
  | c :: rest =>
    let tail := runCallbacks beh m rest
    match beh c m with
    | .ok _ => (c :: tail.1, tail.2)
    | .error e => (c :: tail.1, e :: tail.2)

/-- Result of a `publish` call: the updated broker state, the callbacks that
were invoked (in order) and the error messages caught from raising
callbacks. -/
structure PublishOut where
  broker : MessageBroker
  invoked : List Nat
  logged : List String
  deriving Repr, DecidableEq

/-- Publish a message to target agents (`MessageBroker.publish`): append to
history (capped) and queue, resolve the callbacks for the literal entries of
`target_agents`, then invoke each outside the lock with a per-callback
`try/except`.  The `Except` return type records whether the call as a whole
raises to its caller. -/
def publish (b : MessageBroker) (m : AgentMessage) (beh : CallbackBehavior) :
    Except String PublishOut :=
  let b' : MessageBroker :=
    { b with message_history := pushHistory b.message_history b.max_history m,
             message_queue := b.message_queue ++ [m] }
  let r := runCallbacks beh m (callbacksFor b m)
  .ok { broker := b', invoked := r.1, logged := r.2 }

/-- The invoked-callback list of a publish, `[]` if it raised. -/
def publishInvoked (b : MessageBroker) (m : AgentMessage) (beh : CallbackBehavior) :
    List Nat :=
  match publish b m beh with
  | .ok out => out.invoked
  | .error _ => []

end MessageBroker

/-! ### Metrics collector (src/metrics.py) -/

/-- Individual agent performance metrics (`AgentMetrics` dataclass).
`min_time`'s initial `float('inf')` is modelled as `none`. -/
structure AgentMetrics where
  agent_id : String
  call_count : Nat := 0
  total_time : ℚ := 0
  min_time : Option ℚ := none
  max_time : ℚ := 0
  success_count : Nat := 0
  error_count : Nat := 0
  last_call_time : Option String := none
  deriving Repr, DecidableEq

namespace AgentMetrics

/-- Record a single agent call (`AgentMetrics.record_call`); `now` is the
`datetime.utcnow().isoformat()` reading. -/
def record_call (m : AgentMetrics) (duration : ℚ) (success : Bool) (now : String) :
    AgentMetrics :=
  { m with
    call_count := m.call_count + 1
    total_time := m.total_time + duration
    min_time := some (match m.min_time with
      | none => duration
      | some t => min t duration)
    max_time := max m.max_time duration
    success_count := if success then m.success_count + 1 else m.success_count
    error_count := if success then m.error_count else m.error_count + 1
    last_call_time := some now }

/-- Average execution time (`average_time` property). -/
def average_time (m : AgentMetrics) : ℚ :=
  if 0 < m.call_count then m.total_time / m.call_count else 0

/-- Success rate (`success_rate` property). -/
def success_rate (m : AgentMetrics) : ℚ :=
  let total := m.success_count + m.error_count
  if 0 < total then (m.success_count : ℚ) / total else 0

/-- A fresh record as created lazily by
`MetricsCollector.record_agent_call` on first use of an agent id. -/
def init (agent_id : String) : AgentMetrics := { agent_id := agent_id }

/-- Fold a sequence of recorded calls (duration, success flag, timestamp)
into a metrics record, as repeated `record_agent_call`s for one agent do. -/
def recordAll (m : AgentMetrics) (calls : List (ℚ × Bool × String)) : AgentMetrics :=
  calls.foldl (fun acc c => record_call acc c.1 c.2.1 c.2.2) m

end AgentMetrics

/-! ### Python string helpers shared by the agents

Python `str.lower()` is modelled as per-character lowercasing, `in` as
substring containment, `split()` as whitespace splitting that drops empty
fields, and `re.sub(r"\s+", " ", s).strip()` as collapsing whitespace runs
to single spaces and stripping the ends.  Unicode NFKC normalisation
(identity on ASCII) is not modelled. -/

/-- Python `s.lower()` (per-character). -/
def pyLower (s : String) : String := ⟨s.data.map Char.toLower⟩

/-- Check that `n` occurs as a contiguous sublist. -/
def isSubList (n : List Char) : List Char → Bool
  | [] => n.isEmpty
  | c :: rest => n.isPrefixOf (c :: rest) || isSubList n rest

/-- Python `needle in hay` (substring containment). -/
def pyIn (needle hay : String) : Bool := isSubList needle.data hay.data

/-- Python `s.split()`: split on whitespace, dropping empty fields. -/
def pySplit (s : String) : List String :=
  (s.split Char.isWhitespace).filter (· ≠ "")

/-- Occurrences of the non-empty, non-overlapping needle `c0 :: n`
(Python `hay.count(needle)` for a non-empty needle). -/
def countOccAux (c0 : Char) (n : List Char) : List Char → Nat
  | [] => 0
  | c :: rest =>
    if (c0 :: n).isPrefixOf (c :: rest) then
      countOccAux c0 n (rest.drop n.length) + 1
    else
      countOccAux c0 n rest
termination_by l => l.length
decreasing_by
  all_goals simp only [List.length_drop, List.length_cons]
  all_goals omega

/-- Python `hay.count(needle)` for a non-empty literal needle. -/
def pyCount (needle hay : String) : Nat :=
  match needle.data with
  | [] => 0
  | c :: n => countOccAux c n hay.data

/-- Python `s.isupper()`: at least one cased character and no lowercase one
(cased approximated by upper/lower-case letters). -/
def pyIsUpper (s : String) : Bool :=
  s.data.any (fun c => c.isUpper || c.isLower) && s.data.all (fun c => !c.isLower)

/-- One step of `re.sub(r"\s+", " ", -)`: each maximal whitespace run becomes
a single space; the flag records whether the previous character was
whitespace. -/
def collapseWS (prevWS : Bool) : List Char → List Char
  | [] => []
  | c :: rest =>
    if c.isWhitespace then
      if prevWS then collapseWS true rest else ' ' :: collapseWS true rest
    else
      c :: collapseWS false rest

/-- Python `s.strip()` on a character list. -/
def stripWS (l : List Char) : List Char :=
  ((l.dropWhile Char.isWhitespace).reverse.dropWhile Char.isWhitespace).reverse

/-- Python `re.sub(r"\s+", " ", s).strip()` as used by
`TextualAgent.clean_text` and `PreprocessingAgent._normalize`. -/
def normWS (s : String) : String := ⟨stripWS (collapseWS false s.data)⟩

/-! ### Decision engine (src/agents/judge_agent_rule.py)

Dict-typed optional arguments are modelled by `PyDict`: `undef` is Python
`None`, `emptyD` the falsy `{}`, and `val a` a non-empty dict whose
modelled keys are the `Option` fields of `a` (a missing key is `none`). -/

/-- A Python value that is either `None`, an empty dict, or a non-empty
dict with modelled content `α`. -/
inductive PyDict (α : Type) where
  | undef : PyDict α
  | emptyD : PyDict α
  | val (a : α) : PyDict α
  deriving Repr, DecidableEq

/-- Python truthiness of a `PyDict`. -/
def PyDict.truthy {α : Type} : PyDict α → Bool
  | .val _ => true
  | _ => false

/-- Content of a refutation dict (`refutation.get("confidence", 0.5)`). -/
structure Refutation where
  confidence : Option ℚ
  deriving Repr, DecidableEq

/-- Content of a visual-analysis dict. -/
structure VisualAnalysis where
  confidence : Option ℚ
  deriving Repr, DecidableEq

/-- Content of a textual-analysis dict. -/
structure TextualAnalysis where
  overall_confidence : Option ℚ
  deriving Repr, DecidableEq

/-- Content of the `source_info` sub-dict of a source analysis. -/
structure SourceInfo where
  credibility_score : Option ℚ
  source_type : Option String
  deriving Repr, DecidableEq

/-- Content of a source-analysis dict; a missing or empty `source_info`
sub-dict is `none` (the code only reads keys from it). -/
structure SourceAnalysis where
  source_info : Option SourceInfo
  authority_score : Option ℚ
  deriving Repr, DecidableEq

/-- Content of a truthy `fact_check` dict on an item; `is_fact_check` is the
truthiness of that key's value. -/
structure FactCheck where
  is_fact_check : Bool
  verdict : Option String
  confidence : Option ℚ
  rating : Option String
  site_name : Option String
  deriving Repr, DecidableEq

/-- The `item` argument of `JudgeAgent.evaluate`: `empty` covers Python
`None` and `{}` (evaluate replaces `None` by `{}` immediately and its
simple-call test accepts both); `withKeys fc` is a non-empty dict whose
`fact_check` entry, when present and truthy, is `fc`. -/
inductive JItem where
  | empty : JItem
  | withKeys (fact_check : Option FactCheck) : JItem
  deriving Repr, DecidableEq

/-- The four named criteria scores, in the insertion order of the
`criteria_scores` dict. -/
structure CriteriaScores where
  evidence_strength : ℚ
  source_credibility : ℚ
  argument_quality : ℚ
  consistency_score : ℚ
  deriving Repr, DecidableEq

/-- The `dict.values()` view of the criteria scores. -/
def CriteriaScores.values (cs : CriteriaScores) : List ℚ :=
  [cs.evidence_strength, cs.source_credibility, cs.argument_quality, cs.consistency_score]

/-- The criteria weight vector, same key set. -/
structure Weights where
  evidence_strength : ℚ
  source_credibility : ℚ
  argument_quality : ℚ
  consistency_score : ℚ
  deriving Repr, DecidableEq

/-- The fixed default weight vector used by both branches of `evaluate`. -/
def defaultWeights : Weights :=
  { evidence_strength := 0.30, source_credibility := 0.25,
    argument_quality := 0.25, consistency_score := 0.20 }

namespace JudgeAgent

/-- Python `min(1.0, max(0.0, score))`, the clamp ending the evidence and
argument-quality criteria. -/
def clamp01 (score : ℚ) : ℚ := min 1 (max 0 score)

/-- Kanıt gücü skoru (`JudgeAgent._calculate_evidence_strength`). -/
def calculate_evidence_strength (claim_arg challenge_arg : String)
    (refutation : PyDict Refutation) : ℚ :=
  let score : ℚ := 0.6
  let score :=
    if claim_arg ≠ "" then
      let cl := pyLower claim_arg
      let clen := (pySplit claim_arg).length
      let score := if 30 < clen then score + 0.15 else score
      let score := if ["evidence", "source", "study", "research", "data",
          "official"].any (fun w => pyIn w cl) then score + 0.15 else score
      let score := if ["verified", "confirmed", "proven", "fact"].any
          (fun w => pyIn w cl) then score + 0.1 else score
      let score := if ["shocking", "secret", "hidden", "exposed",
          "revealed"].any (fun w => pyIn w cl) then score - 0.2 else score
      let score := if pyIn "!" claim_arg || pyIsUpper claim_arg then
          score - 0.15 else score
      let score := if ["allegedly", "rumor", "unconfirmed"].any
          (fun w => pyIn w cl) then score - 0.1 else score
      score
    else score
  let score :=
    if challenge_arg ≠ "" then
      let chl := pyLower challenge_arg
      let chlen := (pySplit challenge_arg).length
      let score := if 25 < chlen then score - 0.15 else score
      let score := if ["evidence", "proof", "verified", "fact-check"].any
          (fun w => pyIn w chl) then score - 0.15 else score
      let score := if ["false", "misleading", "inaccurate", "debunked"].any
          (fun w => pyIn w chl) then score - 0.2 else score
      let score := if ["no source", "unverified", "lacks evidence"].any
          (fun w => pyIn w chl) then score - 0.1 else score
      let score := if ["might", "could", "possibly", "uncertain"].any
          (fun w => pyIn w chl) then score + 0.1 else score
      score
    else score
  let score :=
    if refutation.truthy then
      let rc := (match refutation with
        | .val r => r.confidence.getD 0.5
        | _ => 0.5)
      if 0.7 < rc then score + 0.15
      else if rc < 0.4 then score - 0.1
      else score
    else score
  clamp01 score

/-- Kaynak güvenilirlik skoru (`JudgeAgent._calculate_source_credibility`). -/
def calculate_source_credibility (source_analysis : PyDict SourceAnalysis) : ℚ :=
  match source_analysis with
  | .val sa =>
    let source_info := sa.source_info
    let credibility := (source_info.bind (·.credibility_score)).getD 0.65
    let authority := sa.authority_score.getD 0.65
    let source_type := (source_info.bind (·.source_type)).getD ""
    let credibility := if source_type = "established_media" ∨ source_type = "news_agency"
      then max credibility 0.75 else credibility
    let authority := if source_type = "established_media" ∨ source_type = "news_agency"
      then max authority 0.75 else authority
    (credibility + authority) / 2
  | _ => 0.65

/-- Argüman kalitesi skoru (`JudgeAgent._calculate_argument_quality`). -/
def calculate_argument_quality (claim_arg challenge_arg : String)
    (refutation : PyDict Refutation) : ℚ :=
  let score : ℚ := 0.6
  let score :=
    if claim_arg ≠ "" then
      let cl := pyLower claim_arg
      let cwords := (pySplit claim_arg).length
      let score := if 20 < cwords then score + 0.15 else score
      let score := if ["because", "evidence", "source", "data", "study",
          "research"].any (fun w => pyIn w cl) then score + 0.15 else score
      let score := if ["according to", "reports", "official", "verified"].any
          (fun w => pyIn w cl) then score + 0.1 else score
      let score := if cwords < 10 then score - 0.1 else score
      let score := if ["maybe", "perhaps", "might be", "could be"].any
          (fun w => pyIn w cl) then score - 0.1 else score
      score
    else score
  let score :=
    if challenge_arg ≠ "" then
      let chl := pyLower challenge_arg
      let chwords := (pySplit challenge_arg).length
      let score := if 25 < chwords then score - 0.15 else score
      let score := if ["evidence", "proof", "verified", "fact-check",
          "debunked"].any (fun w => pyIn w chl) then score - 0.2 else score
      let score := if ["false", "misleading", "inaccurate", "untrue"].any
          (fun w => pyIn w chl) then score - 0.15 else score
      let score := if ["no source", "unverified", "lacks", "missing"].any
          (fun w => pyIn w chl) then score - 0.1 else score
      score
    else score
  let score :=
    if refutation.truthy then
      let rc := (match refutation with
        | .val r => r.confidence.getD 0.5
        | _ => 0.5)
      if 0.75 < rc then score + 0.15
      else if rc < 0.35 then score - 0.1
      else score
    else score
  clamp01 score

/-- Tutarlılık skoru (`JudgeAgent._calculate_consistency_score`). -/
def calculate_consistency_score (visual_analysis : PyDict VisualAnalysis)
    (textual_analysis : PyDict TextualAnalysis) : ℚ :=
  let scores : List ℚ :=
    (match visual_analysis with
      | .val v => [v.confidence.getD 0.5]
      | _ => []) ++
    (match textual_analysis with
      | .val t => [t.overall_confidence.getD 0.5]
      | _ => [])
  if scores = [] then 0.5 else scores.sum / scores.length

/-- The four criteria scores computed by `evaluate`'s heuristic path. -/
def criteriaScores (claim_arg challenge_arg : String) (refutation : PyDict Refutation)
    (visual_analysis : PyDict VisualAnalysis) (textual_analysis : PyDict TextualAnalysis)
    (source_analysis : PyDict SourceAnalysis) : CriteriaScores :=
  { evidence_strength := calculate_evidence_strength claim_arg challenge_arg refutation
    source_credibility := calculate_source_credibility source_analysis
    argument_quality := calculate_argument_quality claim_arg challenge_arg refutation
    consistency_score := calculate_consistency_score visual_analysis textual_analysis }

/-- Ağırlıklı ortalama: `sum(criteria_scores[k] * weights[k])` with the
default weights. -/
def weighted_score (cs : CriteriaScores) : ℚ :=
  cs.evidence_strength * 0.30 + cs.source_credibility * 0.25 +
    cs.argument_quality * 0.25 + cs.consistency_score * 0.20

/-- Güven aralığı (`JudgeAgent._calculate_confidence_interval`): mean and
population standard deviation of the scores (`** 0.5` is `Real.sqrt`),
clamped as `(max(0, mean - std), min(1, mean + std))`. -/
noncomputable def calculate_confidence_interval (scores : List ℚ) : ℝ × ℝ :=
  if scores = [] then (0, 1)
  else
    let mean_score : ℚ := scores.sum / scores.length
    let variance : ℚ := (scores.map (fun s => (s - mean_score) ^ 2)).sum / scores.length
    let std_dev : ℝ := Real.sqrt (variance : ℝ)
    (max 0 ((mean_score : ℝ) - std_dev), min 1 ((mean_score : ℝ) + std_dev))

open Classical in
/-- Karar verme (`JudgeAgent._determine_verdict`): threshold tables for the
`"sensitive"` and normal modes (`self._threshold_adjustment`). -/
noncomputable def determine_verdict (threshold_adjustment : String) (score : ℚ)
    (confidence_interval : ℝ × ℝ) : String :=
  let lower := confidence_interval.1
  let upper := confidence_interval.2
  if threshold_adjustment = "sensitive" then
    if 0.72 ≤ score ∧ ((0.62 : ℝ) ≤ lower) then "REAL"
    else if 0.67 ≤ score ∧ ((0.57 : ℝ) ≤ lower) then "REAL"
    else if 0.62 ≤ score ∧ ((0.52 : ℝ) ≤ lower) then "REAL"
    else if score ≤ 0.38 ∨ (upper ≤ (0.48 : ℝ) ∧ score < 0.48) then "FAKE"
    else if score < 0.48 ∧ upper < (0.58 : ℝ) then "FAKE"
    else "UNSURE"
  else
    if 0.70 ≤ score ∧ ((0.60 : ℝ) ≤ lower) then "REAL"
    else if 0.65 ≤ score ∧ ((0.55 : ℝ) ≤ lower) then "REAL"
    else if 0.60 ≤ score ∧ ((0.50 : ℝ) ≤ lower) then "REAL"
    else if score ≤ 0.35 ∨ (upper ≤ (0.45 : ℝ) ∧ score < 0.45) then "FAKE"
    else if score < 0.45 ∧ upper < (0.55 : ℝ) then "FAKE"
    else "UNSURE"

/-- Verdict produced from a criteria-score assignment: `_determine_verdict`
applied to the weighted score and the confidence interval of the scores. -/
noncomputable def verdictFor (threshold_adjustment : String) (cs : CriteriaScores) : String :=
  determine_verdict threshold_adjustment (weighted_score cs)
    (calculate_confidence_interval cs.values)

/-- Result of `JudgeAgent.evaluate`: the backward-compatibility bare
verdict string, the fact-check override dict, or the full heuristic result
dict.  The `rationale` of the heuristic dict (an `f"{score:.2f}"`
rendering of the criteria scores) is presentation-only and not modelled. -/
inductive EvalResult where
  | bare (verdict : String)
  | factCheck (verdict : String) (confidence : ℚ) (site_name rating rationale : String)
      (criteria_scores : CriteriaScores) (weights : Weights)
  | full (verdict : String) (confidence : ℚ) (confidence_interval : ℝ × ℝ)
      (criteria_scores : CriteriaScores) (weights : Weights)

/-- The non-fact-check path of `evaluate`: criteria scores, weighted
score, interval, verdict, and the simple-call backward-compatibility check
(`refutation is None and visual_analysis is None and textual_analysis is
None and source_analysis is None and (item is None or item == {})`). -/
noncomputable def evalHeuristic (threshold_adjustment : String)
    (claim_arg challenge_arg : String) (refutation : PyDict Refutation)
    (visual_analysis : PyDict VisualAnalysis) (textual_analysis : PyDict TextualAnalysis)
    (source_analysis : PyDict SourceAnalysis) (item : JItem) : EvalResult :=
  let cs := criteriaScores claim_arg challenge_arg refutation visual_analysis
    textual_analysis source_analysis
  let ws := weighted_score cs
  let ci := calculate_confidence_interval cs.values
  let verdict := determine_verdict threshold_adjustment ws ci
  let is_simple_call :=
    refutation = .undef ∧ visual_analysis = .undef ∧ textual_analysis = .undef ∧
      source_analysis = .undef ∧ item = .empty
  if is_simple_call then .bare verdict
  else .full verdict ws ci cs defaultWeights

/-- Multi-criteria decision analysis (`JudgeAgent.evaluate`).
`threshold_adjustment` is the field set in `__init__` from the persisted
trainer adjustments (`"normal"` unless `"increase_sensitivity"` applies). -/
noncomputable def evaluate (threshold_adjustment : String)
    (claim_arg challenge_arg : String) (refutation : PyDict Refutation)
    (visual_analysis : PyDict VisualAnalysis) (textual_analysis : PyDict TextualAnalysis)
    (source_analysis : PyDict SourceAnalysis) (item : JItem) : EvalResult :=
  match item with
  | .withKeys (some fc) =>
    if fc.is_fact_check then
      let verdict := fc.verdict.getD "UNSURE"
      let confidence := fc.confidence.getD 0.95
      let rating := fc.rating.getD "Unknown"
      let site_name := fc.site_name.getD "Fact-check site"
      .factCheck verdict confidence site_name rating
        ("Fact-checked by " ++ site_name ++ " as " ++ rating ++ ". Verdict: " ++ verdict)
        { evidence_strength := confidence, source_credibility := 0.95,
          argument_quality := confidence, consistency_score := confidence }
        defaultWeights
    else
      evalHeuristic threshold_adjustment claim_arg challenge_arg refutation
        visual_analysis textual_analysis source_analysis (.withKeys (some fc))
  | it =>
    evalHeuristic threshold_adjustment claim_arg challenge_arg refutation
      visual_analysis textual_analysis source_analysis it

end JudgeAgent

/-! ### Preprocessing agent (src/agents/preprocessing_agent.py)

A news item dict; `has_image` models the presence of an `image_url`/`image`
key.  The broker message sent on success and the duplicate-detection cache
are side effects no claim mentions and are not modelled; timestamps are
dropped. -/

/-- A candidate news item dict (the keys the core reads). -/
structure NewsItem where
  id : Option String := none
  text : Option String := none
  headline : Option String := none
  fact_check : Option FactCheck := none
  has_image : Bool := false
  detected_language : Option String := none
  deriving Repr, DecidableEq

/-- Fixed placeholder returned by
`PreprocessingAgent._assess_image_quality`. -/
structure ImageQuality where
  has_image : Bool
  quality_score : ℚ
  is_manipulated : Bool
  note : String
  deriving Repr, DecidableEq

/-- Result dict of `PreprocessingAgent.process` (union of the keys of its
three return shapes; absent keys are `none`).  The `image_quality` key of a
processed item may itself hold `None`, hence the nested `Option`. -/
structure PPAOut where
  status : String
  original_data : Option NewsItem := none
  cleaned_data : Option NewsItem := none
  language : Option String := none
  is_spam : Option Bool := none
  image_quality : Option (Option ImageQuality) := none
  deriving Repr, DecidableEq

namespace PreprocessingAgent

/-- Duplicate detection (`_is_duplicate`): deliberately disabled in the
source, returns `False` unconditionally. -/
def is_duplicate (_item : NewsItem) : Bool := false

/-- Dil tespiti (`_detect_language`). -/
def detect_language (item : NewsItem) : String :=
  let text := pyLower (item.text.getD "" ++ " " ++ item.headline.getD "")
  let turkish_chars : List Char := ['ç', 'ğ', 'ı', 'ö', 'ş', 'ü']
  let has_turkish := turkish_chars.any (fun c => text.data.contains c)
  let english_words := ["the", "and", "is", "are", "was", "were", "this", "that"]
  let has_english := english_words.any (fun w => pyIn w text)
  if has_turkish then "tr"
  else if has_english then "en"
  else "unknown"

/-- Metin temizliği (`TextualAgent.clean_text`): NFKC-normalise (identity
in this model) and collapse whitespace in the `text` key, creating it if
absent. -/
def clean_text (item : NewsItem) : NewsItem :=
  { item with text := some (normWS (item.text.getD "")) }

/-- Spam/bot içerik tespiti (`_detect_spam`), applied to the cleaned
item. -/
def detect_spam (item : NewsItem) : Bool :=
  let text := pyLower (item.text.getD "")
  let headline := pyLower (item.headline.getD "")
  let spam_indicators : List Bool :=
    [ decide (text.length < 50),
      decide (5 < pyCount "!" text),
      decide (3 < pyCount "http" text),
      pyIn "click here" text || pyIn "click here" headline,
      pyIn "free money" text || pyIn "free money" headline,
      decide ((pySplit text).dedup.length < 10) ]
  spam_indicators.any id

/-- Metin normalizasyonu (`_normalize`): collapse whitespace in the `text`
and `headline` keys when present and record the detected language; the
`fact_check` value is preserved (a record field here, so automatic). -/
def normalize (item : NewsItem) (language : String) : NewsItem :=
  let item := match item.text with
    | some t => { item with text := some (normWS t) }
    | none => item
  let item := match item.headline with
    | some h => { item with headline := some (normWS h) }
    | none => item
  { item with detected_language := some language }

/-- Görsel kalite değerlendirmesi (`_assess_image_quality`). -/
def assess_image_quality (_item : NewsItem) : ImageQuality :=
  { has_image := true, quality_score := 0.7, is_manipulated := false,
    note := "Full image analysis requires VVA" }

/-- Ana işleme metodu (`PreprocessingAgent.process`).  Note that
`clean_text` mutates the input dict in place in Python, so the `spam`
branch's `original_data` is the cleaned item. -/
def process (data : NewsItem) : PPAOut :=
  if is_duplicate data then
    { status := "duplicate", original_data := some data }
  else
    let language := detect_language data
    let cleaned := clean_text data
    let is_spam := detect_spam cleaned
    if is_spam then
      { status := "spam", original_data := some cleaned }
    else
      let normalized := normalize cleaned language
      let image_quality := if data.has_image then some (assess_image_quality data) else none
      { status := "processed", cleaned_data := some normalized,
        language := some language, is_spam := some false,
        image_quality := some image_quality }

end PreprocessingAgent

/-! ### Orchestrator (src/orchestrator.py)

The orchestrator treats the analysis agents as black boxes: each call
either returns a value or raises.  Opaque agent outputs are drawn from a
type parameter `V`; only the fields the orchestrator itself reads
(preprocessing status, cleaned data, judge verdict and decision
confidence) are structured.  Timings passed to the metrics collector are
wall-clock readings and are dropped; the recorded event stream keeps the
identity, order and success flags of every `record_agent_call`,
`record_phase_execution` and `record_pipeline_execution` call. -/

/-- The `decision` sub-dict of a judge result, as read by
`judge_result.get("decision", {}).get("confidence", 0.5)`. -/
structure JDecision where
  confidence : Option ℚ := none
  deriving Repr, DecidableEq

/-- A judge-agent result dict, as read by the orchestrator. -/
structure JAOut where
  verdict : Option String := none
  decision : Option JDecision := none
  deriving Repr, DecidableEq

/-- One recorded call to the metrics collector. -/
inductive MetricEvent where
  | agentCall (agent_id : String) (success : Bool)
  | phaseExec (phase_name : String)
  | pipelineRec (item_id : String) (verdict : String) (phases : List String) (success : Bool)
  deriving Repr, DecidableEq

/-- Behaviour of each agent the orchestrator invokes: the argument types
mirror the data each Python call site passes. -/
structure AgentBehaviors (V : Type) where
  crawler_fetch : Except String NewsItem
  sta : NewsItem → Except String V
  ppa : NewsItem → Except String PPAOut
  vva : NewsItem → Except String V
  tca : NewsItem → Except String V
  ca : NewsItem → Except String String
  cha : NewsItem → Except String String
  ra : String → String → NewsItem → Except String V
  ja : String → String → V → V → V → V → NewsItem → Except String JAOut
  mea : Option JDecision → V → V → V → Except String V
  coa : String → NewsItem → V → V → V → Except String V

/-- The dict returned by `process_news_item`: the minimal early-exit dict
`{"status", "item", "processing_time"}` (no verdict or confidence keys),
or the full completed result. -/
inductive OResult (V : Type) where
  | early (status : String) (item : NewsItem)
  | completed (item : NewsItem) (verdict : String) (confidence : ℚ)
      (source_result : V) (preprocessed : PPAOut) (visual textual : V)
      (claim_argument challenge_argument : String) (refutation : V)
      (judge : JAOut) (meta : V) (correction : Option V)
  deriving DecidableEq

/-- The `verdict` entry of a pipeline result, `none` when the dict has no
such key (the early-exit dict). -/
def OResult.verdictField {V : Type} : OResult V → Option String
  | .early _ _ => none
  | .completed _ v _ _ _ _ _ _ _ _ _ _ _ => some v

/-- The `confidence` entry of a pipeline result, `none` when absent. -/
def OResult.confidenceField {V : Type} : OResult V → Option ℚ
  | .early _ _ => none
  | .completed _ _ c _ _ _ _ _ _ _ _ _ _ => some c

/-- The `status` entry of a pipeline result. -/
def OResult.statusField {V : Type} : OResult V → String
  | .early st _ => st
  | .completed _ _ _ _ _ _ _ _ _ _ _ _ _ => "completed"

/-- Outcome of the `try` body of `process_news_item`. -/
inductive TryResult (V : Type) where
  | earlyExit (status : String) (item : NewsItem)
  | completed (r : OResult V)
  | raised (e : String)

/-- State observable when the `try` body of `process_news_item` finishes
(normally, by early return, or by an escaping exception): the metric
events recorded so far, the keys of `phase_times` in insertion order, the
`item_id` local, and the `judge_result` local when assigned. -/
structure TryOutcome (V : Type) where
  events : List MetricEvent
  phases : List String
  item_id : String
  judge_result : Option JAOut
  outcome : TryResult V

/-- Phases 1-5 of `process_news_item` after the item is available.  Agent
metric events are recorded only after a call returns (a raising call is
not recorded), matching the source order of `record_agent_call` /
`record_phase_execution` / `record_pipeline_execution`. -/
def runPhases {V : Type} (A : AgentBehaviors V) (item : NewsItem) (item_id : String) :
    TryOutcome V :=
  match A.sta item with
  | .error e => ⟨[], [], item_id, none, .raised e⟩
  | .ok source_result =>
  let ev := [MetricEvent.agentCall "STA" true]
  match A.ppa item with
  | .error e => ⟨ev, [], item_id, none, .raised e⟩
  | .ok preprocessed =>
  let ev := ev ++ [MetricEvent.agentCall "PP-A" true, MetricEvent.phaseExec "data_collection"]
  let phases := ["data_collection"]
  if preprocessed.status = "duplicate" ∨ preprocessed.status = "spam" then
    ⟨ev ++ [MetricEvent.pipelineRec item_id "UNSURE" phases true], phases, item_id, none,
      .earlyExit preprocessed.status item⟩
  else
  let cleaned := preprocessed.cleaned_data.getD item
  match A.vva cleaned with
  | .error e => ⟨ev, phases, item_id, none, .raised e⟩
  | .ok visual_result =>
  let ev := ev ++ [MetricEvent.agentCall "VVA" true]
  match A.tca cleaned with
  | .error e => ⟨ev, phases, item_id, none, .raised e⟩
  | .ok textual_result =>
  let ev := ev ++ [MetricEvent.agentCall "TCA" true, MetricEvent.phaseExec "content_analysis"]
  let phases := phases ++ ["content_analysis"]
  match A.ca cleaned with
  | .error e => ⟨ev, phases, item_id, none, .raised e⟩
  | .ok claim_arg =>
  let ev := ev ++ [MetricEvent.agentCall "CA" true]
  match A.cha cleaned with
  | .error e => ⟨ev, phases, item_id, none, .raised e⟩
  | .ok challenge_arg =>
  let ev := ev ++ [MetricEvent.agentCall "CHA" true]
  match A.ra claim_arg challenge_arg cleaned with
  | .error e => ⟨ev, phases, item_id, none, .raised e⟩
  | .ok refutation_result =>
  let ev := ev ++ [MetricEvent.agentCall "RA" true, MetricEvent.phaseExec "debate"]
  let phases := phases ++ ["debate"]
  match A.ja claim_arg challenge_arg refutation_result visual_result textual_result
      source_result cleaned with
  | .error e => ⟨ev, phases, item_id, none, .raised e⟩
  | .ok judge_result =>
  let ev := ev ++ [MetricEvent.agentCall "JA" true]
  match A.mea judge_result.decision visual_result textual_result source_result with
  | .error e => ⟨ev, phases, item_id, some judge_result, .raised e⟩
  | .ok meta_result =>
  let ev := ev ++ [MetricEvent.agentCall "MEA" true, MetricEvent.phaseExec "decision_making"]
  let phases := phases ++ ["decision_making"]
  let verdict := judge_result.verdict.getD "UNSURE"
  match (if verdict = "FAKE" then
      (A.coa verdict cleaned visual_result textual_result source_result).map some
    else .ok none) with
  | .error e => ⟨ev, phases, item_id, some judge_result, .raised e⟩
  | .ok correction_result =>
  let ev := ev ++ (if correction_result.isSome then [MetricEvent.agentCall "COA" true] else [])
  let ev := ev ++ [MetricEvent.phaseExec "correction"]
  let phases := phases ++ ["correction"]
  let confidence := ((judge_result.decision.getD {}).confidence).getD 0.5
  ⟨ev, phases, item_id, some judge_result,
    .completed (.completed cleaned verdict confidence source_result preprocessed
      visual_result textual_result claim_arg challenge_arg refutation_result
      judge_result meta_result correction_result)⟩

/-- The `try` body of `process_news_item`, including the default crawler
fetch when no item is given. -/
def runTry {V : Type} (A : AgentBehaviors V) (item? : Option NewsItem) : TryOutcome V :=
  match item? with
  | some item => runPhases A item (item.id.getD "unknown")
  | none =>
    match A.crawler_fetch with
    | .error e => ⟨[], [], "unknown", none, .raised e⟩
    | .ok item => runPhases A item (item.id.getD "unknown")

/-- The verdict the `finally` block reports:
`judge_result.get("verdict", "UNSURE") if 'judge_result' in locals() else
"UNSURE"`. -/
def judgeVerdictLocal {V : Type} (t : TryOutcome V) : String :=
  match t.judge_result with
  | some j => j.verdict.getD "UNSURE"
  | none => "UNSURE"

/-- Main pipeline execution (`Orchestrator.process_news_item`): run the
`try` body, then the `finally` block records one pipeline entry (with the
`success` flag cleared by the `except` handler on an escaping exception,
which is re-raised), and the result or exception is returned. -/
def process_news_item {V : Type} (A : AgentBehaviors V) (item? : Option NewsItem) :
    Except String (OResult V) × List MetricEvent :=
  let t := runTry A item?
  let success := match t.outcome with
    | .raised _ => false
    | _ => true
  let finallyRec := MetricEvent.pipelineRec t.item_id (judgeVerdictLocal t) t.phases success
  match t.outcome with
  | .raised e => (.error e, t.events ++ [finallyRec])
  | .earlyExit st it => (.ok (.early st it), t.events ++ [finallyRec])
  | .completed r => (.ok r, t.events ++ [finallyRec])

/-- Select the pipeline-execution records of an event stream. -/
def isPipelineRec : MetricEvent → Bool
  | .pipelineRec _ _ _ _ => true
  | _ => false

/-- The pipeline-execution records of an event stream, in order. -/
def pipelineRecords (evs : List MetricEvent) : List MetricEvent :=
  evs.filter isPipelineRec

/-! ## Theorems -/

/-! ### Broker delivery (claims C1 and C9) -/

namespace MessageBroker

/-- Every callback in the list handed to the invocation loop is invoked, in
order, whatever the callbacks' behaviour: each iteration's `try/except`
swallows a raise. -/
theorem runCallbacks_invoked (beh : CallbackBehavior) (m : AgentMessage) :
    ∀ l : List Nat, (runCallbacks beh m l).1 = l := by
  intro l
  induction l with
  | nil => rfl
  | cons c rest ih =>
    simp only [runCallbacks]
    cases beh c m <;> simp [ih]

/-- Counting occurrences distributes over the flat-map resolution. -/
theorem count_flatMap (f : String → List Nat) (cb : Nat) :
    ∀ ts : List String, ((ts.flatMap f).count cb) = (ts.map (fun t => (f t).count cb)).sum := by
  intro ts
  induction ts with
  | nil => rfl
  | cons t rest ih => simp [List.flatMap_cons, List.count_append, ih]

/-- Claim C1 as stated: when `target_agents` is the wildcard list `["*"]`,
`publish` invokes every callback of every currently subscribed agent. -/
def publishDeliversWildcard : Prop :=
  ∀ (b : MessageBroker) (m : AgentMessage) (beh : CallbackBehavior) (out : PublishOut),
    publish b m beh = .ok out →
    m.target_agents = ["*"] →
    ∀ (a : String) (cbs : List Nat), b.subscribers.lookup a = some cbs →
      ∀ cb ∈ cbs, cb ∈ out.invoked

/-- A broker with a single subscriber, for the wildcard counterexample. -/
def exBroker : MessageBroker := { subscribers := [("a", [0])] }

/-- A wildcard message published by the counterexample. -/
def exMessage : AgentMessage :=
  { agent_id := "x", timestamp := "t0", message_type := "analysis",
    content := "c", target_agents := ["*"] }

/-- C1 counterexample: with one subscriber registered under `"a"` and a
message whose `target_agents` is `["*"]`, `publish` resolves the literal key
`"*"`, finds no subscribers, and invokes nothing — the wildcard claim fails.
(`broadcast`, not `publish`, performs all-subscriber delivery.) -/
theorem publish_wildcard_counterexample : ¬ publishDeliversWildcard := by
  intro h
  have h0 := h exBroker exMessage (fun _ _ => .ok ())
    { broker := { subscribers := [("a", [0])],
                  message_history := [exMessage], message_queue := [exMessage] },
      invoked := [], logged := [] }
    (by rfl) rfl "a" [0] (by rfl) 0 (by simp)
  simp at h0

/-- C1 (amended): `publish` resolves `target_agents` literally — a callback
is invoked once for each occurrence of each agent id it is subscribed
under in the target list; callbacks of agent ids not in the list are never
invoked, and `"*"` only matches callbacks literally subscribed under the
key `"*"`. -/
theorem publish_literal_target_delivery (b : MessageBroker) (m : AgentMessage)
    (beh : CallbackBehavior) (cb : Nat) :
    (publishInvoked b m beh).count cb =
      (m.target_agents.map (fun t => ((b.subscribers.lookup t).getD []).count cb)).sum := by
  unfold publishInvoked publish
  simp only
  rw [runCallbacks_invoked]
  exact count_flatMap _ cb m.target_agents

/-- C9: a raising callback neither propagates its exception to the caller
of `publish` (the call always returns normally) nor prevents any other
callback in the same resolved list from being invoked. -/
theorem publish_contains_callback_exceptions (b : MessageBroker) (m : AgentMessage)
    (beh : CallbackBehavior) :
    ∃ out : PublishOut, publish b m beh = .ok out ∧ out.invoked = callbacksFor b m :=
  ⟨_, rfl, runCallbacks_invoked beh m (callbacksFor b m)⟩

end MessageBroker

/-! ### Metrics aggregation (claim C8) -/

namespace AgentMetrics

/-- Folding recorded calls adds their count, durations and outcome tallies
to any starting record. -/
theorem recordAll_stats (calls : List (ℚ × Bool × String)) :
    ∀ m : AgentMetrics,
      (recordAll m calls).call_count = m.call_count + calls.length ∧
      (recordAll m calls).total_time = m.total_time + (calls.map (·.1)).sum ∧
      (recordAll m calls).success_count = m.success_count + calls.countP (fun c => c.2.1) ∧
      (recordAll m calls).error_count = m.error_count + calls.countP (fun c => !c.2.1) := by
  induction calls with
  | nil => intro m; simp [recordAll]
  | cons c rest ih =>
    intro m
    obtain ⟨h1, h2, h3, h4⟩ := ih (record_call m c.1 c.2.1 c.2.2)
    simp only [recordAll, List.foldl_cons] at h1 h2 h3 h4 ⊢
    refine ⟨?_, ?_, ?_, ?_⟩
    · rw [h1]
      simp only [record_call, List.length_cons]
      omega
    · rw [h2]
      simp only [record_call, List.map_cons, List.sum_cons]
      ring
    · rw [h3]
      simp only [record_call, List.countP_cons]
      cases hb : c.2.1 <;> simp [hb] <;> omega
    · rw [h4]
      simp only [record_call, List.countP_cons]
      cases hb : c.2.1 <;> simp [hb] <;> omega

/-- Tallies of successes and failures partition the call list. -/
theorem countP_bool_split (calls : List (ℚ × Bool × String)) :
    calls.countP (fun c => c.2.1) + calls.countP (fun c => !c.2.1) = calls.length := by
  induction calls with
  | nil => rfl
  | cons c rest ih =>
    simp only [List.countP_cons, List.length_cons]
    cases hb : c.2.1 <;> simp [hb] <;> omega

/-- C8: after recording `n` successful and `m` failed calls with arbitrary
durations (`n + m > 0`), an agent's `success_rate` is `n / (n + m)` and its
`average_time` is the arithmetic mean of the recorded durations. -/
theorem success_rate_and_average_time (agent_id : String)
    (calls : List (ℚ × Bool × String)) (hne : calls ≠ []) :
    (recordAll (init agent_id) calls).success_rate =
      (calls.countP (fun c => c.2.1) : ℚ) / calls.length ∧
    (recordAll (init agent_id) calls).average_time =
      (calls.map (·.1)).sum / calls.length := by
  obtain ⟨h1, h2, h3, h4⟩ := recordAll_stats calls (init agent_id)
  have hlen : 0 < calls.length := List.length_pos.mpr hne
  have hsplit := countP_bool_split calls
  have h1' : (recordAll (init agent_id) calls).call_count = calls.length := by
    rw [h1]; simp [init]
  have h2' : (recordAll (init agent_id) calls).total_time = (calls.map (·.1)).sum := by
    rw [h2]; simp [init]
  have h3' : (recordAll (init agent_id) calls).success_count =
      calls.countP (fun c => c.2.1) := by
    rw [h3]; simp [init]
  have h4' : (recordAll (init agent_id) calls).error_count =
      calls.countP (fun c => !c.2.1) := by
    rw [h4]; simp [init]
  constructor
  · unfold success_rate
    rw [h3', h4', if_pos (by omega)]
    congr 1
    exact_mod_cast hsplit
  · unfold average_time
    rw [h1', h2', if_pos hlen]

/-- Witness for C8 at a concrete call list: one success of duration 1 and
one failure of duration 2 give success rate 1/2 and average 3/2. -/
theorem success_rate_and_average_time_witness :
    (recordAll (init "STA") [(1, true, "t1"), (2, false, "t2")]).success_rate =
      (([(1, true, "t1"), (2, false, "t2")] : List (ℚ × Bool × String)).countP
        (fun c => c.2.1) : ℚ) / ([(1, true, "t1"), (2, false, "t2")] : List (ℚ × Bool × String)).length ∧
    (recordAll (init "STA") [(1, true, "t1"), (2, false, "t2")]).average_time =
      (([(1, true, "t1"), (2, false, "t2")] : List (ℚ × Bool × String)).map (·.1)).sum /
        ([(1, true, "t1"), (2, false, "t2")] : List (ℚ × Bool × String)).length :=
  success_rate_and_average_time "STA" [(1, true, "t1"), (2, false, "t2")] (by decide)

end AgentMetrics

/-! ### Decision engine: fact-check override and bare-verdict compatibility
(claims C2 and C10) -/

namespace JudgeAgent

/-- C2: when the input item carries a truthy fact-check marked
`is_fact_check`, `evaluate` returns the fact-check's verdict with its
supplied confidence (default `0.95`), for every value of the claim and
challenge arguments and of the refutation, visual, textual and source
analyses; the heuristic criteria computation and threshold table are
bypassed (the returned criteria scores are the fixed fact-check ones). -/
theorem fact_check_override (adj ca cha : String) (ref : PyDict Refutation)
    (vis : PyDict VisualAnalysis) (tex : PyDict TextualAnalysis)
    (src : PyDict SourceAnalysis) (fc : FactCheck) (h : fc.is_fact_check = true) :
    evaluate adj ca cha ref vis tex src (.withKeys (some fc)) =
      .factCheck (fc.verdict.getD "UNSURE") (fc.confidence.getD 0.95)
        (fc.site_name.getD "Fact-check site") (fc.rating.getD "Unknown")
        ("Fact-checked by " ++ fc.site_name.getD "Fact-check site" ++ " as " ++
          fc.rating.getD "Unknown" ++ ". Verdict: " ++ fc.verdict.getD "UNSURE")
        { evidence_strength := fc.confidence.getD 0.95, source_credibility := 0.95,
          argument_quality := fc.confidence.getD 0.95,
          consistency_score := fc.confidence.getD 0.95 }
        defaultWeights := by
  simp [evaluate, h]

/-- A concrete authoritative fact-check result, for the C2 witness. -/
def exFactCheck : FactCheck :=
  { is_fact_check := true, verdict := some "FAKE", confidence := some 0.9,
    rating := some "False", site_name := some "Snopes" }

/-- Witness for C2: a concrete item carrying a `FAKE` fact-check of
confidence `0.9` makes `evaluate` return exactly that verdict and
confidence, whatever the other arguments carry. -/
theorem fact_check_override_witness :
    evaluate "normal" "claim" "challenge" (.val ⟨some 0.2⟩) (.val ⟨some 0.1⟩)
      (.val ⟨some 0.1⟩) (.val ⟨none, some 0.1⟩) (.withKeys (some exFactCheck)) =
      .factCheck "FAKE" 0.9 "Snopes" "False"
        "Fact-checked by Snopes as False. Verdict: FAKE"
        { evidence_strength := 0.9, source_credibility := 0.95,
          argument_quality := 0.9, consistency_score := 0.9 }
        defaultWeights := by
  simpa using fact_check_override "normal" "claim" "challenge" (.val ⟨some 0.2⟩)
    (.val ⟨some 0.1⟩) (.val ⟨some 0.1⟩) (.val ⟨none, some 0.1⟩) exFactCheck rfl

/-- Every verdict the threshold table produces is one of the three
categories. -/
theorem determine_verdict_mem (adj : String) (s : ℚ) (ci : ℝ × ℝ) :
    determine_verdict adj s ci = "REAL" ∨ determine_verdict adj s ci = "FAKE" ∨
      determine_verdict adj s ci = "UNSURE" := by
  unfold determine_verdict
  dsimp only
  split_ifs <;> simp

/-- C10: `evaluate` returns the bare verdict string exactly when it is
called in the backward-compatibility shape — refutation, visual, textual
and source analyses all `None` and the item argument absent or `{}` — and
on such simple calls the bare value is one of `REAL`, `FAKE`, `UNSURE`;
every other call yields a structured result dict. -/
theorem simple_call_returns_bare_verdict :
    (∀ (adj ca cha : String) (ref : PyDict Refutation) (vis : PyDict VisualAnalysis)
      (tex : PyDict TextualAnalysis) (src : PyDict SourceAnalysis) (item : JItem),
      (∃ v, evaluate adj ca cha ref vis tex src item = .bare v) ↔
        (ref = .undef ∧ vis = .undef ∧ tex = .undef ∧ src = .undef ∧ item = .empty)) ∧
    (∀ adj ca cha : String,
      ∃ v, evaluate adj ca cha .undef .undef .undef .undef .empty = .bare v ∧
        (v = "REAL" ∨ v = "FAKE" ∨ v = "UNSURE")) := by
  have hbare : ∀ (adj ca cha : String) (ref : PyDict Refutation)
      (vis : PyDict VisualAnalysis) (tex : PyDict TextualAnalysis)
      (src : PyDict SourceAnalysis),
      evalHeuristic adj ca cha .undef .undef .undef .undef .empty =
        .bare (determine_verdict adj
          (weighted_score (criteriaScores ca cha .undef .undef .undef .undef))
          (calculate_confidence_interval
            (criteriaScores ca cha .undef .undef .undef .undef).values)) := by
    intro adj ca cha ref vis tex src
    unfold evalHeuristic
    dsimp only
    rw [if_pos ⟨rfl, rfl, rfl, rfl, rfl⟩]
  have hnotbare : ∀ (adj ca cha : String) (ref : PyDict Refutation)
      (vis : PyDict VisualAnalysis) (tex : PyDict TextualAnalysis)
      (src : PyDict SourceAnalysis) (fc? : Option FactCheck) (w : String),
      evalHeuristic adj ca cha ref vis tex src (.withKeys fc?) ≠ .bare w := by
    intro adj ca cha ref vis tex src fc? w
    unfold evalHeuristic
    dsimp only
    rw [if_neg (by rintro ⟨_, _, _, _, h5⟩; cases h5)]
    simp
  constructor
  · intro adj ca cha ref vis tex src item
    constructor
    · rintro ⟨v, hv⟩
      cases item with
      | empty =>
        rw [show evaluate adj ca cha ref vis tex src .empty =
            evalHeuristic adj ca cha ref vis tex src .empty from rfl] at hv
        unfold evalHeuristic at hv
        dsimp only at hv
        by_cases hc : ref = PyDict.undef ∧ vis = PyDict.undef ∧ tex = PyDict.undef ∧
            src = PyDict.undef ∧ (JItem.empty = JItem.empty)
        · exact ⟨hc.1, hc.2.1, hc.2.2.1, hc.2.2.2.1, rfl⟩
        · rw [if_neg hc] at hv
          exact absurd hv (by simp)
      | withKeys fc? =>
        cases fc? with
        | none =>
          rw [show evaluate adj ca cha ref vis tex src (.withKeys none) =
              evalHeuristic adj ca cha ref vis tex src (.withKeys none) from rfl] at hv
          exact absurd hv (hnotbare adj ca cha ref vis tex src none v)
        | some fc =>
          by_cases hfc : fc.is_fact_check = true
          · simp only [evaluate] at hv
            rw [if_pos hfc] at hv
            exact absurd hv (by simp)
          · simp only [evaluate] at hv
            rw [if_neg hfc] at hv
            exact absurd hv (hnotbare adj ca cha ref vis tex src (some fc) v)
    · rintro ⟨h1, h2, h3, h4, h5⟩
      subst h1; subst h2; subst h3; subst h4; subst h5
      exact ⟨_, hbare adj ca cha .undef .undef .undef .undef⟩
  · intro adj ca cha
    exact ⟨_, hbare adj ca cha .undef .undef .undef .undef,
      determine_verdict_mem adj _ _⟩

end JudgeAgent

/-! ### Confidence-interval invariant (claim C3)

The interval `(max(0, m - σ), min(1, m + σ))` can only fold over itself if
`m - σ > 1` or `m + σ < 0`.  Over four scores of which two (evidence
strength and argument quality, which the code clamps to `[0, 1]`) are
bounded, a one-sided Chebyshev-style bound rules both cases out, whatever
the other two scores are — so the invariant survives arbitrary float
confidences in the analyses. -/

/-- If two of four reals are nonneg and the total is nonpositive, the
squared total is at most twice the sum of squares. -/
theorem sq_sum_le_two_sum_sq (a b c d : ℝ) (ha : 0 ≤ a) (hc : 0 ≤ c)
    (hS : a + b + c + d ≤ 0) :
    (a + b + c + d) ^ 2 ≤ 2 * (a ^ 2 + b ^ 2 + c ^ 2 + d ^ 2) := by
  nlinarith [sq_nonneg (b - d), sq_nonneg a, sq_nonneg c,
    mul_nonneg (add_nonneg ha hc) (by linarith : (0 : ℝ) ≤ (a + c) - 2 * (a + b + c + d))]

/-- Mean of four reals. -/
noncomputable def mean4 (a b c d : ℝ) : ℝ := (a + b + c + d) / 4

/-- Population variance of four reals. -/
noncomputable def var4 (a b c d : ℝ) : ℝ :=
  ((a - mean4 a b c d) ^ 2 + (b - mean4 a b c d) ^ 2 +
   (c - mean4 a b c d) ^ 2 + (d - mean4 a b c d) ^ 2) / 4

/-- The variance of four reals is nonnegative. -/
theorem var4_nonneg (a b c d : ℝ) : 0 ≤ var4 a b c d := by
  unfold var4
  positivity

/-- When the first and third of four reals are nonnegative, the mean plus
the standard deviation is nonnegative. -/
theorem mean4_add_sqrt_var4_nonneg (a b c d : ℝ) (ha : 0 ≤ a) (hc : 0 ≤ c) :
    0 ≤ mean4 a b c d + Real.sqrt (var4 a b c d) := by
  have hv := var4_nonneg a b c d
  by_cases hm : 0 ≤ mean4 a b c d
  · have := Real.sqrt_nonneg (var4 a b c d)
    linarith
  · push_neg at hm
    have hS : a + b + c + d ≤ 0 := by
      unfold mean4 at hm
      linarith
    have hkey : (mean4 a b c d) ^ 2 ≤ var4 a b c d := by
      have h2 := sq_sum_le_two_sum_sq a b c d ha hc hS
      have hveq : var4 a b c d = (a ^ 2 + b ^ 2 + c ^ 2 + d ^ 2) / 4 -
          (mean4 a b c d) ^ 2 := by
        unfold var4 mean4
        ring
      have hmeq : (mean4 a b c d) ^ 2 = (a + b + c + d) ^ 2 / 16 := by
        unfold mean4
        ring
      linarith
    have hle : -(mean4 a b c d) ≤ Real.sqrt (var4 a b c d) :=
      (Real.le_sqrt (by linarith) hv).mpr (by rw [neg_pow]; simpa using hkey)
    linarith

/-- When the first and third of four reals are at most one, the mean minus
the standard deviation is at most one. -/
theorem mean4_sub_sqrt_var4_le_one (a b c d : ℝ) (ha : a ≤ 1) (hc : c ≤ 1) :
    mean4 a b c d - Real.sqrt (var4 a b c d) ≤ 1 := by
  have h := mean4_add_sqrt_var4_nonneg (1 - a) (1 - b) (1 - c) (1 - d)
    (by linarith) (by linarith)
  have hm : mean4 (1 - a) (1 - b) (1 - c) (1 - d) = 1 - mean4 a b c d := by
    unfold mean4
    ring
  have hv : var4 (1 - a) (1 - b) (1 - c) (1 - d) = var4 a b c d := by
    unfold var4 mean4
    ring
  rw [hm, hv] at h
  linarith

/-- A four-score list is nonempty. -/
theorem quad_ne_nil (a b c d : ℚ) : ([a, b, c, d] : List ℚ) ≠ [] := by simp

/-- Normal form of `_calculate_confidence_interval` on a four-score list:
mean and standard deviation over the casts of the scores. -/
theorem calculate_confidence_interval_quad (a b c d : ℚ) :
    JudgeAgent.calculate_confidence_interval [a, b, c, d] =
      (max 0 (mean4 (a : ℝ) b c d - Real.sqrt (var4 (a : ℝ) b c d)),
       min 1 (mean4 (a : ℝ) b c d + Real.sqrt (var4 (a : ℝ) b c d))) := by
  unfold JudgeAgent.calculate_confidence_interval
  rw [if_neg (quad_ne_nil a b c d)]
  dsimp only
  have hm : (([a, b, c, d] : List ℚ).sum / (([a, b, c, d] : List ℚ).length : ℚ) : ℚ) =
      (a + b + c + d) / 4 := by
    simp
    ring
  rw [hm]
  have hv : ((([a, b, c, d] : List ℚ).map
      (fun s => (s - (a + b + c + d) / 4) ^ 2)).sum /
        (([a, b, c, d] : List ℚ).length : ℚ) : ℚ) =
      ((a - (a + b + c + d) / 4) ^ 2 + (b - (a + b + c + d) / 4) ^ 2 +
       (c - (a + b + c + d) / 4) ^ 2 + (d - (a + b + c + d) / 4) ^ 2) / 4 := by
    simp
    ring
  rw [hv]
  have hmr : ((((a + b + c + d) / 4 : ℚ)) : ℝ) = mean4 (a : ℝ) b c d := by
    unfold mean4
    push_cast
    ring
  have hvr : ((((a - (a + b + c + d) / 4) ^ 2 + (b - (a + b + c + d) / 4) ^ 2 +
      (c - (a + b + c + d) / 4) ^ 2 + (d - (a + b + c + d) / 4) ^ 2) / 4 : ℚ) : ℝ) =
      var4 (a : ℝ) b c d := by
    unfold var4 mean4
    push_cast
    ring
  rw [hmr, hvr]

namespace JudgeAgent

/-- The clamp `min(1.0, max(0.0, score))` lands in `[0, 1]`. -/
theorem clamp01_mem (s : ℚ) : 0 ≤ clamp01 s ∧ clamp01 s ≤ 1 :=
  ⟨le_min (by norm_num) (le_max_left 0 s), min_le_left 1 _⟩

/-- The evidence-strength criterion is clamped to `[0, 1]`. -/
theorem calculate_evidence_strength_mem (ca cha : String) (ref : PyDict Refutation) :
    0 ≤ calculate_evidence_strength ca cha ref ∧
      calculate_evidence_strength ca cha ref ≤ 1 := by
  unfold calculate_evidence_strength
  exact clamp01_mem _

/-- The argument-quality criterion is clamped to `[0, 1]`. -/
theorem calculate_argument_quality_mem (ca cha : String) (ref : PyDict Refutation) :
    0 ≤ calculate_argument_quality ca cha ref ∧
      calculate_argument_quality ca cha ref ≤ 1 := by
  unfold calculate_argument_quality
  exact clamp01_mem _

/-- C3: for every input to the decision engine — arbitrary claim and
challenge arguments and arbitrary (even out-of-range) float confidences in
the refutation, visual, textual and source analyses — the confidence
interval computed from the criteria scores satisfies
`0 ≤ lower ≤ upper ≤ 1`. -/
theorem confidence_interval_invariant (ca cha : String) (ref : PyDict Refutation)
    (vis : PyDict VisualAnalysis) (tex : PyDict TextualAnalysis)
    (src : PyDict SourceAnalysis) :
    0 ≤ (calculate_confidence_interval (criteriaScores ca cha ref vis tex src).values).1 ∧
    (calculate_confidence_interval (criteriaScores ca cha ref vis tex src).values).1 ≤
      (calculate_confidence_interval (criteriaScores ca cha ref vis tex src).values).2 ∧
    (calculate_confidence_interval (criteriaScores ca cha ref vis tex src).values).2 ≤ 1 := by
  obtain ⟨he0, he1⟩ := calculate_evidence_strength_mem ca cha ref
  obtain ⟨hq0, hq1⟩ := calculate_argument_quality_mem ca cha ref
  set a := calculate_evidence_strength ca cha ref with hadef
  set b := calculate_source_credibility src with hbdef
  set c := calculate_argument_quality ca cha ref with hcdef
  set d := calculate_consistency_score vis tex with hddef
  have hvals : (criteriaScores ca cha ref vis tex src).values = [a, b, c, d] := rfl
  rw [hvals, calculate_confidence_interval_quad]
  have ha0 : (0 : ℝ) ≤ (a : ℝ) := by exact_mod_cast he0
  have ha1 : (a : ℝ) ≤ 1 := by exact_mod_cast he1
  have hc0 : (0 : ℝ) ≤ (c : ℝ) := by exact_mod_cast hq0
  have hc1 : (c : ℝ) ≤ 1 := by exact_mod_cast hq1
  have hup : 0 ≤ mean4 (a : ℝ) b c d + Real.sqrt (var4 (a : ℝ) b c d) :=
    mean4_add_sqrt_var4_nonneg _ _ _ _ ha0 hc0
  have hlo : mean4 (a : ℝ) b c d - Real.sqrt (var4 (a : ℝ) b c d) ≤ 1 :=
    mean4_sub_sqrt_var4_le_one _ _ _ _ ha1 hc1
  have hs := Real.sqrt_nonneg (var4 (a : ℝ) b c d)
  refine ⟨le_max_left 0 _, ?_, min_le_left 1 _⟩
  apply max_le
  · exact le_min (by norm_num) hup
  · exact le_min hlo (by linarith)

end JudgeAgent

/-! ### Verdict monotonicity (claim C4)

Raising a single criterion score raises the weighted score but also the
dispersion of the four scores, so the interval's lower bound can fall and
a `REAL` verdict can degrade to `UNSURE` (and an `UNSURE` verdict can even
degrade to `FAKE` by the upper bound falling).  What does hold is
monotonicity under a common increment of all four scores, which leaves the
dispersion unchanged. -/

/-- All four criteria scores shifted by a common increment. -/
def CriteriaScores.shift (cs : CriteriaScores) (δ : ℚ) : CriteriaScores :=
  { evidence_strength := cs.evidence_strength + δ,
    source_credibility := cs.source_credibility + δ,
    argument_quality := cs.argument_quality + δ,
    consistency_score := cs.consistency_score + δ }

/-- All four criteria scores lie in `[0, 1]`. -/
def CriteriaScores.inRange (cs : CriteriaScores) : Prop :=
  0 ≤ cs.evidence_strength ∧ cs.evidence_strength ≤ 1 ∧
  0 ≤ cs.source_credibility ∧ cs.source_credibility ≤ 1 ∧
  0 ≤ cs.argument_quality ∧ cs.argument_quality ≤ 1 ∧
  0 ≤ cs.consistency_score ∧ cs.consistency_score ≤ 1

namespace JudgeAgent

/-- The REAL side of the threshold table as a predicate on the weighted
score and the interval's lower bound. -/
def realCond (adj : String) (score : ℚ) (lower : ℝ) : Prop :=
  if adj = "sensitive" then
    (0.72 ≤ score ∧ (0.62 : ℝ) ≤ lower) ∨ (0.67 ≤ score ∧ (0.57 : ℝ) ≤ lower) ∨
      (0.62 ≤ score ∧ (0.52 : ℝ) ≤ lower)
  else
    (0.70 ≤ score ∧ (0.60 : ℝ) ≤ lower) ∨ (0.65 ≤ score ∧ (0.55 : ℝ) ≤ lower) ∨
      (0.60 ≤ score ∧ (0.50 : ℝ) ≤ lower)

/-- The FAKE side of the threshold table as a predicate on the weighted
score and the interval's upper bound. -/
def fakeCond (adj : String) (score : ℚ) (upper : ℝ) : Prop :=
  if adj = "sensitive" then
    (score ≤ 0.38 ∨ (upper ≤ (0.48 : ℝ) ∧ score < 0.48)) ∨
      (score < 0.48 ∧ upper < (0.58 : ℝ))
  else
    (score ≤ 0.35 ∨ (upper ≤ (0.45 : ℝ) ∧ score < 0.45)) ∨
      (score < 0.45 ∧ upper < (0.55 : ℝ))

/-- A three-tier/two-clause ite chain collapses into its disjunctions. -/
theorem ite_chain_collapse {c1 c2 c3 f1 f2 : Prop} [Decidable c1] [Decidable c2]
    [Decidable c3] [Decidable f1] [Decidable f2] [Decidable (c1 ∨ c2 ∨ c3)]
    [Decidable (f1 ∨ f2)] :
    (if c1 then "REAL" else if c2 then "REAL" else if c3 then "REAL"
      else if f1 then "FAKE" else if f2 then "FAKE" else "UNSURE") =
    (if c1 ∨ c2 ∨ c3 then "REAL" else if f1 ∨ f2 then "FAKE" else "UNSURE") := by
  by_cases h1 : c1
  · simp [h1]
  · by_cases h2 : c2
    · simp [h1, h2]
    · by_cases h3 : c3
      · simp [h1, h2, h3]
      · by_cases h4 : f1
        · simp [h1, h2, h3, h4]
        · by_cases h5 : f2 <;> simp [h1, h2, h3, h4, h5]

open Classical in
/-- The verdict chain collapses to: REAL if a REAL tier fires, otherwise
FAKE if a FAKE clause fires, otherwise UNSURE. -/
theorem determine_verdict_eq (adj : String) (s : ℚ) (ci : ℝ × ℝ) :
    determine_verdict adj s ci =
      if realCond adj s ci.1 then "REAL"
      else if fakeCond adj s ci.2 then "FAKE"
      else "UNSURE" := by
  unfold determine_verdict realCond fakeCond
  dsimp only
  by_cases hadj : adj = "sensitive"
  · simp only [if_pos hadj]
    exact ite_chain_collapse
  · simp only [if_neg hadj]
    exact ite_chain_collapse

/-- The REAL tiers are monotone in the score and the lower bound. -/
theorem realCond_mono (adj : String) {s s' : ℚ} {l l' : ℝ} (hs : s ≤ s') (hl : l ≤ l')
    (h : realCond adj s l) : realCond adj s' l' := by
  unfold realCond at h ⊢
  split_ifs at h ⊢ with hadj
  all_goals rcases h with ⟨h1, h2⟩ | ⟨h1, h2⟩ | ⟨h1, h2⟩
  all_goals first
    | exact Or.inl ⟨le_trans h1 hs, le_trans h2 hl⟩
    | exact Or.inr (Or.inl ⟨le_trans h1 hs, le_trans h2 hl⟩)
    | exact Or.inr (Or.inr ⟨le_trans h1 hs, le_trans h2 hl⟩)

/-- The FAKE clauses are antitone in the score and the upper bound. -/
theorem fakeCond_anti (adj : String) {s s' : ℚ} {u u' : ℝ} (hs : s ≤ s') (hu : u ≤ u')
    (h : fakeCond adj s' u') : fakeCond adj s u := by
  unfold fakeCond at h ⊢
  split_ifs at h ⊢ with hadj
  all_goals rcases h with (h1 | ⟨h1, h2⟩) | ⟨h1, h2⟩
  all_goals first
    | exact Or.inl (Or.inl (le_trans hs h1))
    | exact Or.inl (Or.inr ⟨le_trans hu h1, lt_of_le_of_lt hs h2⟩)
    | exact Or.inr ⟨lt_of_le_of_lt hs h1, lt_of_le_of_lt hu h2⟩

/-- Rank of a verdict on the FAKE-to-REAL axis. -/
def verdictRank (v : String) : Nat :=
  if v = "REAL" then 2 else if v = "UNSURE" then 1 else 0

/-- The verdict never moves toward FAKE when the score, lower bound and
upper bound all move up. -/
theorem determine_verdict_rank_mono (adj : String) {s s' : ℚ} {l l' u u' : ℝ}
    (hs : s ≤ s') (hl : l ≤ l') (hu : u ≤ u') :
    verdictRank (determine_verdict adj s (l, u)) ≤
      verdictRank (determine_verdict adj s' (l', u')) := by
  rw [determine_verdict_eq, determine_verdict_eq]
  dsimp only
  by_cases hr : realCond adj s l
  · rw [if_pos hr, if_pos (realCond_mono adj hs hl hr)]
  · rw [if_neg hr]
    by_cases hf : fakeCond adj s u
    · rw [if_pos hf]
      have h0 : verdictRank "FAKE" = 0 := by decide
      rw [h0]
      exact Nat.zero_le _
    · rw [if_neg hf]
      by_cases hr' : realCond adj s' l'
      · rw [if_pos hr']
        decide
      · rw [if_neg hr', if_neg (fun hf' => hf (fakeCond_anti adj hs hu hf'))]

/-- C4 (amended): increasing all four criteria scores by one common
increment (so the dispersion is unchanged) never moves the verdict
computed from the weighted score and confidence interval from REAL toward
FAKE: a REAL verdict stays REAL and an UNSURE verdict never becomes
FAKE, in either threshold mode. -/
theorem verdict_monotone_uniform_increase (adj : String) (cs : CriteriaScores) (δ : ℚ)
    (hδ : 0 ≤ δ) (hin : cs.inRange) (hin' : (cs.shift δ).inRange) :
    verdictRank (verdictFor adj cs) ≤ verdictRank (verdictFor adj (cs.shift δ)) := by
  obtain ⟨e, b, q, k⟩ := cs
  have hδr : (0 : ℝ) ≤ (δ : ℚ) := by exact_mod_cast hδ
  unfold verdictFor
  have hvals : (CriteriaScores.mk e b q k).values = [e, b, q, k] := rfl
  have hvals' : ((CriteriaScores.mk e b q k).shift δ).values =
      [e + δ, b + δ, q + δ, k + δ] := rfl
  rw [hvals, hvals', calculate_confidence_interval_quad, calculate_confidence_interval_quad]
  have hm : mean4 ((e + δ : ℚ) : ℝ) ((b + δ : ℚ) : ℝ) ((q + δ : ℚ) : ℝ) ((k + δ : ℚ) : ℝ) =
      mean4 ((e : ℚ) : ℝ) ((b : ℚ) : ℝ) ((q : ℚ) : ℝ) ((k : ℚ) : ℝ) + (δ : ℚ) := by
    unfold mean4
    push_cast
    ring
  have hv : var4 ((e + δ : ℚ) : ℝ) ((b + δ : ℚ) : ℝ) ((q + δ : ℚ) : ℝ) ((k + δ : ℚ) : ℝ) =
      var4 ((e : ℚ) : ℝ) ((b : ℚ) : ℝ) ((q : ℚ) : ℝ) ((k : ℚ) : ℝ) := by
    unfold var4 mean4
    push_cast
    ring
  rw [hm, hv]
  apply determine_verdict_rank_mono
  · unfold weighted_score CriteriaScores.shift
    dsimp only
    linarith
  · exact max_le_max le_rfl (by linarith)
  · exact min_le_min le_rfl (by linarith)

/-- Concrete criteria scores on which the single-criterion claim fails:
all criteria at `0.57` except evidence strength at `0.85`. -/
def csA : CriteriaScores :=
  { evidence_strength := 17/20, source_credibility := 57/100,
    argument_quality := 57/100, consistency_score := 57/100 }

/-- The same scores with evidence strength increased to `1`. -/
def csB : CriteriaScores :=
  { evidence_strength := 1, source_credibility := 57/100,
    argument_quality := 57/100, consistency_score := 57/100 }

/-- C4 counterexample: raising the evidence-strength criterion alone from
`0.85` to `1` (all scores in `[0, 1]`, other criteria fixed at `0.57`)
moves the default-mode verdict from REAL to UNSURE: the mean rises from
`0.64` to `0.6775` but the standard deviation rises faster, so the lower
interval bound falls below the `0.50` REAL floor while the weighted score
`0.699` stays below the `0.70` top tier. -/
theorem single_criterion_increase_counterexample :
    csA.inRange ∧ csB.inRange ∧
    csA.evidence_strength < csB.evidence_strength ∧
    csA.source_credibility = csB.source_credibility ∧
    csA.argument_quality = csB.argument_quality ∧
    csA.consistency_score = csB.consistency_score ∧
    verdictFor "normal" csA = "REAL" ∧ verdictFor "normal" csB = "UNSURE" := by
  refine ⟨by norm_num [CriteriaScores.inRange, csA],
    by norm_num [CriteriaScores.inRange, csB],
    by norm_num [csA, csB], rfl, rfl, rfl, ?_, ?_⟩
  · unfold verdictFor
    have hw : weighted_score csA = 327/500 := by norm_num [weighted_score, csA]
    have hvals : csA.values = [17/20, 57/100, 57/100, 57/100] := rfl
    rw [hw, hvals, calculate_confidence_interval_quad]
    have hm : mean4 ((17/20 : ℚ) : ℝ) ((57/100 : ℚ) : ℝ) ((57/100 : ℚ) : ℝ)
        ((57/100 : ℚ) : ℝ) = 16/25 := by
      unfold mean4
      push_cast
      norm_num
    have hv : var4 ((17/20 : ℚ) : ℝ) ((57/100 : ℚ) : ℝ) ((57/100 : ℚ) : ℝ)
        ((57/100 : ℚ) : ℝ) = 147/10000 := by
      unfold var4 mean4
      push_cast
      norm_num
    rw [hm, hv]
    have hs1 : (0.09 : ℝ) < Real.sqrt (147/10000) := by
      rw [Real.lt_sqrt (by norm_num)]
      norm_num
    have hs2 : Real.sqrt (147/10000) ≤ (0.14 : ℝ) := by
      rw [Real.sqrt_le_left (by norm_num)]
      norm_num
    have hc3 : (0.60 : ℚ) ≤ 327/500 ∧
        (0.50 : ℝ) ≤ max 0 ((16/25 : ℝ) - Real.sqrt (147/10000)) :=
      ⟨by norm_num,
        le_trans (by linarith) (le_max_right 0 _)⟩
    unfold determine_verdict
    dsimp only
    rw [if_neg (by decide : ¬("normal" = "sensitive"))]
    split_ifs with h1 h2
    all_goals rfl
  · unfold verdictFor
    have hw : weighted_score csB = 699/1000 := by norm_num [weighted_score, csB]
    have hvals : csB.values = [1, 57/100, 57/100, 57/100] := rfl
    rw [hw, hvals, calculate_confidence_interval_quad]
    have hm : mean4 ((1 : ℚ) : ℝ) ((57/100 : ℚ) : ℝ) ((57/100 : ℚ) : ℝ)
        ((57/100 : ℚ) : ℝ) = 271/400 := by
      unfold mean4
      push_cast
      norm_num
    have hv : var4 ((1 : ℚ) : ℝ) ((57/100 : ℚ) : ℝ) ((57/100 : ℚ) : ℝ)
        ((57/100 : ℚ) : ℝ) = 5547/160000 := by
      unfold var4 mean4
      push_cast
      norm_num
    rw [hm, hv]
    have hs1 : (0.1275 : ℝ) < Real.sqrt (5547/160000) := by
      rw [Real.lt_sqrt (by norm_num)]
      norm_num
    have hs3 : (0.1775 : ℝ) < Real.sqrt (5547/160000) := by
      rw [Real.lt_sqrt (by norm_num)]
      norm_num
    unfold determine_verdict
    dsimp only
    rw [if_neg (by decide : ¬("normal" = "sensitive"))]
    split_ifs with h1 h2 h3 h4 h5
    · exact absurd h1.1 (by norm_num)
    · exfalso
      rcases le_max_iff.mp h2.2 with h | h
      · norm_num at h
      · linarith
    · exfalso
      rcases le_max_iff.mp h3.2 with h | h
      · norm_num at h
      · linarith
    · exfalso
      rcases h4 with h | ⟨h, h'⟩
      · norm_num at h
      · norm_num at h'
    · exact absurd h5.1 (by norm_num)
    · rfl

/-- Witness for the amended C4 at concrete inputs: shifting the all-`0.6`
score vector up by `0.1` keeps every hypothesis and the rank
comparison. -/
theorem verdict_monotone_uniform_increase_witness :
    (0 : ℚ) ≤ 1/10 ∧
    (CriteriaScores.mk (3/5) (3/5) (3/5) (3/5)).inRange ∧
    ((CriteriaScores.mk (3/5) (3/5) (3/5) (3/5)).shift (1/10)).inRange ∧
    verdictRank (verdictFor "normal" (CriteriaScores.mk (3/5) (3/5) (3/5) (3/5))) ≤
      verdictRank (verdictFor "normal"
        ((CriteriaScores.mk (3/5) (3/5) (3/5) (3/5)).shift (1/10))) :=
  ⟨by norm_num,
    by norm_num [CriteriaScores.inRange],
    by norm_num [CriteriaScores.inRange, CriteriaScores.shift],
    verdict_monotone_uniform_increase "normal" (CriteriaScores.mk (3/5) (3/5) (3/5) (3/5))
      (1/10) (by norm_num) (by norm_num [CriteriaScores.inRange])
      (by norm_num [CriteriaScores.inRange, CriteriaScores.shift])⟩

end JudgeAgent

/-! ### Orchestrator failure handling and early exits (claims C5, C6, C7) -/

/-- A `try`-body that ended in an escaping exception has recorded no
pipeline entry of its own: the only in-`try` pipeline record is on the
early-exit path, which returns normally. -/
theorem runPhases_raised_no_pipeline {V : Type} (A : AgentBehaviors V) (item : NewsItem)
    (item_id : String) (e : String)
    (h : (runPhases A item item_id).outcome = TryResult.raised e) :
    pipelineRecords (runPhases A item item_id).events = [] := by
  unfold runPhases at h ⊢
  rcases h1 : A.sta item with e1 | v1 <;> simp only [h1] at h ⊢
  · simp [pipelineRecords]
  rcases h2 : A.ppa item with e2 | v2 <;> simp only [h2] at h ⊢
  · simp [pipelineRecords, isPipelineRec]
  by_cases hds : v2.status = "duplicate" ∨ v2.status = "spam"
  · simp only [if_pos hds] at h
    simp at h
  simp only [if_neg hds] at h ⊢
  rcases h3 : A.vva (v2.cleaned_data.getD item) with e3 | v3 <;> simp only [h3] at h ⊢
  · simp [pipelineRecords, isPipelineRec]
  rcases h4 : A.tca (v2.cleaned_data.getD item) with e4 | v4 <;> simp only [h4] at h ⊢
  · simp [pipelineRecords, isPipelineRec]
  rcases h5 : A.ca (v2.cleaned_data.getD item) with e5 | v5 <;> simp only [h5] at h ⊢
  · simp [pipelineRecords, isPipelineRec]
  rcases h6 : A.cha (v2.cleaned_data.getD item) with e6 | v6 <;> simp only [h6] at h ⊢
  · simp [pipelineRecords, isPipelineRec]
  rcases h7 : A.ra v5 v6 (v2.cleaned_data.getD item) with e7 | v7 <;> simp only [h7] at h ⊢
  · simp [pipelineRecords, isPipelineRec]
  rcases h8 : A.ja v5 v6 v7 v3 v4 v1 (v2.cleaned_data.getD item) with e8 | v8 <;>
    simp only [h8] at h ⊢
  · simp [pipelineRecords, isPipelineRec]
  rcases h9 : A.mea v8.decision v3 v4 v1 with e9 | v9 <;> simp only [h9] at h ⊢
  · simp [pipelineRecords, isPipelineRec]
  rcases h10 : (if v8.verdict.getD "UNSURE" = "FAKE" then
      (A.coa (v8.verdict.getD "UNSURE") (v2.cleaned_data.getD item) v3 v4 v1).map some
    else Except.ok none) with e10 | v10 <;> simp only [h10] at h ⊢
  · simp [pipelineRecords, isPipelineRec]
  · simp at h

/-- Lifting of the previous lemma through the default crawler fetch. -/
theorem runTry_raised_no_pipeline {V : Type} (A : AgentBehaviors V)
    (item? : Option NewsItem) (e : String)
    (h : (runTry A item?).outcome = TryResult.raised e) :
    pipelineRecords (runTry A item?).events = [] := by
  unfold runTry at h ⊢
  cases item? with
  | some item => exact runPhases_raised_no_pipeline A item _ e h
  | none =>
    rcases h0 : A.crawler_fetch with e0 | item <;> simp only [h0] at h ⊢
    · simp [pipelineRecords]
    · exact runPhases_raised_no_pipeline A item _ e h

/-- C5: whenever an agent call inside `process_news_item` raises, the
exception propagates to the caller, and exactly one pipeline record is
still emitted by the `finally` block, marked `success = false` and
carrying the verdict computed before the failure (`UNSURE` if the judge
had not yet produced one). -/
theorem agent_failure_propagates_and_records {V : Type} (A : AgentBehaviors V)
    (item? : Option NewsItem) (e : String)
    (h : (runTry A item?).outcome = TryResult.raised e) :
    (process_news_item A item?).1 = .error e ∧
    pipelineRecords (process_news_item A item?).2 =
      [MetricEvent.pipelineRec (runTry A item?).item_id
        (judgeVerdictLocal (runTry A item?)) (runTry A item?).phases false] := by
  have hnp := runTry_raised_no_pipeline A item? e h
  constructor
  · unfold process_news_item
    dsimp only
    rw [h]
  · unfold process_news_item
    dsimp only
    rw [h]
    dsimp only
    unfold pipelineRecords at hnp ⊢
    rw [List.filter_append, hnp]
    rfl

/-- A news item for the orchestrator witnesses and counterexamples:
short text, so the default spam heuristic fires. -/
def itemSpam : NewsItem := { id := some "n1", text := some "Breaking" }

/-- Agent behaviours where every agent succeeds with a trivial value and
preprocessing is the real embedded `PreprocessingAgent.process`. -/
def bspam : AgentBehaviors Unit :=
  { crawler_fetch := .ok {},
    sta := fun _ => .ok (),
    ppa := fun d => .ok (PreprocessingAgent.process d),
    vva := fun _ => .ok (),
    tca := fun _ => .ok (),
    ca := fun _ => .ok "",
    cha := fun _ => .ok "",
    ra := fun _ _ _ => .ok (),
    ja := fun _ _ _ _ _ _ _ => .ok {},
    mea := fun _ _ _ _ => .ok (),
    coa := fun _ _ _ _ _ => .ok () }

/-- Agent behaviours identical to `bspam` except that the textual-context
agent raises; preprocessing returns a processed item so the pipeline gets
past the early-exit check. -/
def bfail : AgentBehaviors Unit :=
  { crawler_fetch := .ok {},
    sta := fun _ => .ok (),
    ppa := fun d => .ok { status := "processed", cleaned_data := some d },
    vva := fun _ => .ok (),
    tca := fun _ => .error "boom",
    ca := fun _ => .ok "",
    cha := fun _ => .ok "",
    ra := fun _ _ _ => .ok (),
    ja := fun _ _ _ _ _ _ _ => .ok {},
    mea := fun _ _ _ _ => .ok (),
    coa := fun _ _ _ _ _ => .ok () }

/-- Witness for C5: with the textual-context agent raising `"boom"`, the
call returns that error and the single pipeline record is the failed
one. -/
theorem agent_failure_propagates_and_records_witness :
    (runTry bfail (some itemSpam)).outcome = TryResult.raised "boom" ∧
    ((process_news_item bfail (some itemSpam)).1 = .error "boom" ∧
      pipelineRecords (process_news_item bfail (some itemSpam)).2 =
        [MetricEvent.pipelineRec (runTry bfail (some itemSpam)).item_id
          (judgeVerdictLocal (runTry bfail (some itemSpam)))
          (runTry bfail (some itemSpam)).phases false]) :=
  ⟨rfl, agent_failure_propagates_and_records bfail (some itemSpam) "boom" rfl⟩

/-- C6 counterexample: on a short-text item the pipeline returns the
minimal early-exit dict — status `spam` but *no* `verdict` or `confidence`
entry (the claim expects `verdict = UNSURE` and `confidence = 0.0` in the
returned result; those are added by the API layer, and `UNSURE` appears
only in the pipeline record) — and no `content_analysis` phase execution
is recorded. -/
theorem spam_result_lacks_verdict_and_confidence :
    (process_news_item bspam (some itemSpam)).1 = .ok (.early "spam" itemSpam) ∧
    (OResult.early "spam" itemSpam : OResult Unit).statusField = "spam" ∧
    (OResult.early "spam" itemSpam : OResult Unit).verdictField = none ∧
    (OResult.early "spam" itemSpam : OResult Unit).confidenceField = none ∧
    MetricEvent.phaseExec "content_analysis" ∉ (process_news_item bspam (some itemSpam)).2 :=
  ⟨rfl, rfl, rfl, rfl, by decide⟩

/-- Lowercasing keeps the character count. -/
theorem pyLower_length (s : String) : (pyLower s).length = s.length := by
  show (s.data.map Char.toLower).length = s.data.length
  exact List.length_map _ _

/-- Dropping a prefix cannot lengthen a list. -/
theorem length_dropWhile_le (p : Char → Bool) :
    ∀ l : List Char, (l.dropWhile p).length ≤ l.length := by
  intro l
  induction l with
  | nil => simp
  | cons c rest ih =>
    simp only [List.dropWhile]
    cases hp : p c
    · simp [hp]
    · simp only [hp]
      exact le_trans ih (by simp)

/-- Collapsing whitespace runs cannot lengthen a list. -/
theorem collapseWS_length_le : ∀ (b : Bool) (l : List Char),
    (collapseWS b l).length ≤ l.length := by
  intro b l
  induction l generalizing b with
  | nil => simp [collapseWS]
  | cons c rest ih =>
    simp only [collapseWS]
    split_ifs
    · exact le_trans (ih true) (by simp)
    · simpa using Nat.succ_le_succ (ih true)
    · simpa using Nat.succ_le_succ (ih false)

/-- Stripping ends cannot lengthen a list. -/
theorem stripWS_length_le (l : List Char) : (stripWS l).length ≤ l.length := by
  unfold stripWS
  calc ((l.dropWhile Char.isWhitespace).reverse.dropWhile Char.isWhitespace).reverse.length
      = ((l.dropWhile Char.isWhitespace).reverse.dropWhile Char.isWhitespace).length := by
        simp
    _ ≤ (l.dropWhile Char.isWhitespace).reverse.length := length_dropWhile_le _ _
    _ = (l.dropWhile Char.isWhitespace).length := by simp
    _ ≤ l.length := length_dropWhile_le _ _

/-- Whitespace normalisation cannot lengthen a string. -/
theorem normWS_length_le (s : String) : (normWS s).length ≤ s.length := by
  unfold normWS
  calc (String.mk (stripWS (collapseWS false s.data))).length
      = (stripWS (collapseWS false s.data)).length := rfl
    _ ≤ (collapseWS false s.data).length := stripWS_length_le _
    _ ≤ s.data.length := collapseWS_length_le false s.data
    _ = s.length := rfl

/-- The short-text indicator of `_detect_spam` fires on the cleaned item
when the raw text is shorter than 50 characters. -/
theorem detect_spam_of_short_text (item : NewsItem)
    (hlen : (item.text.getD "").length < 50) :
    PreprocessingAgent.detect_spam (PreprocessingAgent.clean_text item) = true := by
  unfold PreprocessingAgent.detect_spam PreprocessingAgent.clean_text
  dsimp only
  simp only [List.any_cons, id_eq, Bool.or_eq_true]
  left
  rw [decide_eq_true_eq, pyLower_length]
  exact lt_of_le_of_lt (normWS_length_le _) hlen

/-- On a short-text item, `PreprocessingAgent.process` takes the spam
branch. -/
theorem preprocessing_spam_of_short_text (item : NewsItem)
    (hlen : (item.text.getD "").length < 50) :
    PreprocessingAgent.process item =
      { status := "spam", original_data := some (PreprocessingAgent.clean_text item) } := by
  unfold PreprocessingAgent.process
  rw [if_neg (by simp [PreprocessingAgent.is_duplicate])]
  dsimp only
  rw [if_pos (detect_spam_of_short_text item hlen)]

/-- The `try` body of a short-text run: source tracking and preprocessing
succeed, the spam status short-circuits before content analysis, and one
pipeline record with verdict `UNSURE` is written inside the `try`. -/
theorem runTry_spam (V : Type) (A : AgentBehaviors V) (item : NewsItem) (v : V)
    (hppa : A.ppa = fun d => .ok (PreprocessingAgent.process d))
    (hsta : A.sta item = .ok v)
    (hlen : (item.text.getD "").length < 50) :
    runTry A (some item) =
      ⟨[MetricEvent.agentCall "STA" true, MetricEvent.agentCall "PP-A" true,
        MetricEvent.phaseExec "data_collection",
        MetricEvent.pipelineRec (item.id.getD "unknown") "UNSURE" ["data_collection"] true],
       ["data_collection"], item.id.getD "unknown", none,
       .earlyExit "spam" item⟩ := by
  unfold runTry runPhases
  dsimp only
  rw [hsta, hppa]
  dsimp only
  rw [preprocessing_spam_of_short_text item hlen]
  dsimp only
  rw [if_pos (Or.inr rfl)]
  rfl

/-- C6 (amended): on an item whose text is shorter than 50 characters
(default spam heuristic), `process_news_item` returns the early-exit dict
with status `spam` — which carries no `verdict` or `confidence` entries
(the claim's `UNSURE`/`0.0` are supplied by the API layer; `UNSURE`
appears in the pipeline record) — and no `content_analysis` phase
execution is recorded for the run. -/
theorem spam_short_text_early_exit {V : Type} (A : AgentBehaviors V) (item : NewsItem)
    (v : V) (hppa : A.ppa = fun d => .ok (PreprocessingAgent.process d))
    (hsta : A.sta item = .ok v)
    (hlen : (item.text.getD "").length < 50) :
    (process_news_item A (some item)).1 = .ok (.early "spam" item) ∧
    (OResult.early "spam" item : OResult V).verdictField = none ∧
    (OResult.early "spam" item : OResult V).confidenceField = none ∧
    MetricEvent.phaseExec "content_analysis" ∉ (process_news_item A (some item)).2 := by
  have ht := runTry_spam V A item v hppa hsta hlen
  have hp : process_news_item A (some item) =
      (.ok (.early "spam" item),
       [MetricEvent.agentCall "STA" true, MetricEvent.agentCall "PP-A" true,
        MetricEvent.phaseExec "data_collection",
        MetricEvent.pipelineRec (item.id.getD "unknown") "UNSURE" ["data_collection"] true,
        MetricEvent.pipelineRec (item.id.getD "unknown") "UNSURE" ["data_collection"] true]) := by
    unfold process_news_item
    rw [ht]
    rfl
  refine ⟨by rw [hp], rfl, rfl, ?_⟩
  rw [hp]
  simp

/-- Witness for the amended C6 at the concrete spam item and trivial
agent set. -/
theorem spam_short_text_early_exit_witness :
    ((bspam.ppa = fun d => .ok (PreprocessingAgent.process d)) ∧
      bspam.sta itemSpam = .ok () ∧ (itemSpam.text.getD "").length < 50) ∧
    ((process_news_item bspam (some itemSpam)).1 = .ok (.early "spam" itemSpam) ∧
      (OResult.early "spam" itemSpam : OResult Unit).verdictField = none ∧
      (OResult.early "spam" itemSpam : OResult Unit).confidenceField = none ∧
      MetricEvent.phaseExec "content_analysis" ∉ (process_news_item bspam (some itemSpam)).2) :=
  ⟨⟨rfl, rfl, by decide⟩,
    spam_short_text_early_exit bspam itemSpam () rfl rfl (by decide)⟩

/-- C7 (code-level bug): on a spam early exit the pipeline is recorded
twice for the single invocation — once explicitly in the early-exit
branch and once more by the `finally` block that runs after the early
`return` — both records with verdict `UNSURE`, success `true` and the
phase map holding only `data_collection`. -/
theorem spam_double_pipeline_record :
    pipelineRecords (process_news_item bspam (some itemSpam)).2 =
      [MetricEvent.pipelineRec "n1" "UNSURE" ["data_collection"] true,
       MetricEvent.pipelineRec "n1" "UNSURE" ["data_collection"] true] := by
  decide

end MaFnd

